import Mathlib

/-!
Shallow embedding of `src/netedit/GNEGeometry.cpp` (SUMO netedit geometry
layer) and proofs about its clamping, caching, color-alternation and
lookup-table algorithms.

Scalar values that the C++ code manipulates as `double` are modelled as
exact rationals (`ℚ`) where the code only branches and does field
arithmetic, and as real numbers (`ℝ`) where the code computes `atan2` or
Euclidean distances.  Results produced by external collaborators that are
not part of this translation unit (`PositionVector::length2D`,
`getSubpart2D`, `move2side`, `resample`, `computeSmoothShape`, ...) enter
the embedded operations as explicit function parameters.
-/

namespace GNEGeometry

/-- Modelled from the spec: `POSITION_EPS` (the ε of the spec) is declared
in SUMO's geometry headers outside `src/`; its value is 0.1. -/
def POSITION_EPS : ℚ := 1 / 10

/-- The constant `MAXIMUM_DOTTEDGEOMETRYLENGTH = 500.0` (GNEGeometry.cpp line 30). -/
def MAXIMUM_DOTTEDGEOMETRYLENGTH : ℚ := 500

/-- The constant `CIRCLE_RESOLUTION = 10` (GNEGeometry.cpp line 29). -/
def CIRCLE_RESOLUTION : ℚ := 10

/-- The clamping phase of
`Geometry::updateGeometry(shape, starPosOverShape, endPosOverShape, lateralOffset)`
(GNEGeometry.cpp lines 104-123), transcribed branch by branch over an
arbitrary linear ordered field so that it can be run both on `ℚ` (exact
counterexamples) and on `ℝ` (inside the full update operation).
`shapeLength` is the value `myShape.length2D()` computed on line 103 by the
external path collaborator.  The returned pair is
`(starPosOverShape, endPosOverShape)` as they stand on line 125, right
before `getSubpart2D` is called.  Note that every one of the five branches
assigns to `endPosOverShape`; the start value is never modified. -/
def updateGeometryOffsetClamp {α : Type} [LinearOrderedField α]
    (eps shapeLength starPosOverShape endPosOverShape : α) : α × α :=
  -- set initial beginTrim value: `if (starPosOverShape < 0) endPosOverShape = 0;`
  let endPos1 : α := if starPosOverShape < 0 then 0 else endPosOverShape
  -- set initial endtrim value: `if (starPosOverShape < 0) endPosOverShape = shapeLength;`
  let endPos2 : α := if starPosOverShape < 0 then shapeLength else endPos1
  -- check maximum beginTrim:
  -- `if (starPosOverShape > (shapeLength - POSITION_EPS)) endPosOverShape = shapeLength - POSITION_EPS;`
  let endPos3 : α :=
    if starPosOverShape > shapeLength - eps then shapeLength - eps else endPos2
  -- check maximum endTrim: `if (endPosOverShape > shapeLength) endPosOverShape = shapeLength;`
  let endPos4 : α := if endPos3 > shapeLength then shapeLength else endPos3
  -- check sub-vector: `if (endPosOverShape <= starPosOverShape) endPosOverShape += POSITION_EPS;`
  let endPos5 : α := if endPos4 ≤ starPosOverShape then endPos4 + eps else endPos4
  (starPosOverShape, endPos5)

/-- The sampling-step computation of the `DottedGeometry` polyline
constructor (GNEGeometry.cpp lines 341-344): the configured dash length is
kept unless the path's total 2D length exceeds
`MAXIMUM_DOTTEDGEOMETRYLENGTH`, in which case the step becomes
`totalLength2D / (MAXIMUM_DOTTEDGEOMETRYLENGTH * 0.5)`.
`totalLength2D` is `shape.length2D()` from the external path collaborator
(taken after the optional `closePolygon()`). -/
def dottedGeometrySegmentLength (configuredSegmentLength totalLength2D : ℚ) : ℚ :=
  if totalLength2D > MAXIMUM_DOTTEDGEOMETRYLENGTH then
    totalLength2D / (MAXIMUM_DOTTEDGEOMETRYLENGTH * (1 / 2))
  else
    configuredSegmentLength

/-- Number of entries the lazy fill loop of `getVertexCircleAroundPosition`
(GNEGeometry.cpp lines 1089-1095) pushes into `myCircleCoords`:
`i = 0 .. 360 * CIRCLE_RESOLUTION` inclusive, i.e. 3601 points. -/
def circleCoordsSize : ℕ := 360 * 10 + 1

/-- Embeds `GNEGeometry::angleLookup` (GNEGeometry.cpp lines 1116-1125), for the
populated cache: `numCoords = myCircleCoords.size() - 1`;
`index = ((int)(floor(angleDeg * CIRCLE_RESOLUTION + 0.5))) % numCoords`
(C++ `%` truncates toward zero, hence `Int.tmod`); negative remainders are
then shifted up by `numCoords`. -/
def angleLookup (angleDeg : ℚ) : ℤ :=
  let numCoords : ℤ := (circleCoordsSize : ℤ) - 1
  let index : ℤ := (Int.floor (angleDeg * CIRCLE_RESOLUTION + 1 / 2)).tmod numCoords
  if index < 0 then index + numCoords else index

/-- Bridge between the C-style remainder used on lines 1119-1122 (truncating
`%` followed by a conditional shift of negative results) and the
mathematical remainder. -/
theorem tmod_fixup_3600 (a : ℤ) :
    (if a.tmod 3600 < 0 then a.tmod 3600 + 3600 else a.tmod 3600) = a % 3600 := by
  rcases a with m | m
  · rw [show Int.ofNat m = (m : ℤ) from rfl,
      Int.tmod_eq_emod (Int.ofNat_nonneg m) (by norm_num)]
    have h := Int.emod_nonneg (m : ℤ) (show (3600 : ℤ) ≠ 0 by norm_num)
    rw [if_neg (by omega)]
  · rw [show Int.tmod (Int.negSucc m) 3600 = -(((m + 1) % 3600 : ℕ) : ℤ) from rfl,
      Int.negSucc_eq]
    have h1 : (m + 1) % 3600 < 3600 := Nat.mod_lt _ (by norm_num)
    split <;> omega

/-- The wrapped index computed by `angleLookup` is exactly the mathematical
remainder of the rounded scaled angle modulo 3600. -/
theorem angleLookup_eq_emod (x : ℚ) :
    angleLookup x = (Int.floor (x * CIRCLE_RESOLUTION + 1 / 2)) % 3600 := by
  have h1 : ((circleCoordsSize : ℤ) - 1) = 3600 := by norm_num [circleCoordsSize]
  unfold angleLookup
  rw [h1]
  exact tmod_fixup_3600 _

/-- C1 (counterexample): the claim that the clamping phase of
`updateGeometry(shape, startOffset, endOffset, lateralOffset)` always ends
with `endOffset ≥ startOffset + POSITION_EPS` is false.  On a shape of 2D
length 10 (for instance the straight polyline from (0,0) to (10,0)) with
`startOffset = 5` and `endOffset = 3`, the clamp ends with
`(startOffset, endOffset) = (5, 3.1)`: the single ε-nudge of line 122
cannot close a gap wider than ε, and no branch ever modifies the start
value.  The extracted window is degenerate. -/
theorem updateGeometryOffsetClamp_eps_gap_cex :
    ¬ ((updateGeometryOffsetClamp POSITION_EPS 10 5 3).1 + POSITION_EPS ≤
        (updateGeometryOffsetClamp POSITION_EPS 10 5 3).2) := by
  norm_num [updateGeometryOffsetClamp, POSITION_EPS]

/-- C1 (amended): the clamping phase never modifies `starPosOverShape`, and
it yields a strictly non-empty window (`endOffset > startOffset`) whenever
`0 ≤ startOffset ≤ shapeLength − POSITION_EPS` and
`startOffset ≤ endOffset`.  The originally claimed `ε`-separation for
arbitrary offsets, in particular for `startOffset > endOffset`, does not
hold. -/
theorem updateGeometryOffsetClamp_window (L s e : ℚ)
    (h0 : 0 ≤ s) (h1 : s ≤ L - POSITION_EPS) (h2 : s ≤ e) :
    (updateGeometryOffsetClamp POSITION_EPS L s e).1 = s ∧
    s < (updateGeometryOffsetClamp POSITION_EPS L s e).2 := by
  have heps : (0 : ℚ) < POSITION_EPS := by norm_num [POSITION_EPS]
  refine ⟨rfl, ?_⟩
  unfold updateGeometryOffsetClamp
  dsimp only
  split_ifs <;> linarith

/-- C1 (witness): the amended clamp property at the concrete input
`shapeLength = 10`, `startOffset = 0`, `endOffset = 5`. -/
theorem updateGeometryOffsetClamp_window_witness :
    (updateGeometryOffsetClamp POSITION_EPS 10 0 5).1 = 0 ∧
    (0 : ℚ) < (updateGeometryOffsetClamp POSITION_EPS 10 0 5).2 :=
  updateGeometryOffsetClamp_window 10 0 5 (by norm_num)
    (by norm_num [POSITION_EPS]) (by norm_num)

/-- C2: evaluation of the clamp at the inputs where the claimed policy and
the code diverge.  On a shape of 2D length 10: with `startOffset = -1` the
code leaves the start bound at `-1` and ends with the window `(-1, 10)`
instead of resetting it to `(0, 10)`; with `startOffset = 15` the code
ends with `(15, 10)` instead of pulling the start bound back to
`length - ε = 9.9`.  Every clamp branch of lines 104-123 assigns to the
end bound, contradicting the code's own `beginTrim` comments and the
sibling four-argument variant (lines 143-153), which clamps the begin
bound. -/
theorem updateGeometryOffsetClamp_bug_eval :
    updateGeometryOffsetClamp POSITION_EPS 10 (-1) 5 = (-1, 10) ∧
    updateGeometryOffsetClamp POSITION_EPS 10 15 3 = (15, 10) := by
  constructor <;> norm_num [updateGeometryOffsetClamp, POSITION_EPS]

/-- C7: the resampling step of the `DottedGeometry` polyline constructor
equals the configured dash length whenever the total 2D path length is at
most 500 units, and equals `totalLength / 250` as soon as it exceeds 500,
independently of the configured dash length. -/
theorem dottedGeometrySegmentLength_spec (configured totalLength2D : ℚ) :
    (totalLength2D ≤ 500 →
      dottedGeometrySegmentLength configured totalLength2D = configured) ∧
    (500 < totalLength2D →
      dottedGeometrySegmentLength configured totalLength2D = totalLength2D / 250) := by
  unfold dottedGeometrySegmentLength MAXIMUM_DOTTEDGEOMETRYLENGTH
  constructor <;> intro h
  · rw [if_neg (by linarith)]
  · rw [if_pos (by linarith)]
    norm_num

/-- C7 (witness): the step computation evaluated on both sides of the
ceiling: a path of length 400 keeps the configured step 4, a path of
length 600 is stepped at `600 / 250`. -/
theorem dottedGeometrySegmentLength_spec_witness :
    dottedGeometrySegmentLength 4 400 = 4 ∧
    dottedGeometrySegmentLength 4 600 = 600 / 250 :=
  ⟨(dottedGeometrySegmentLength_spec 4 400).1 (by norm_num),
   (dottedGeometrySegmentLength_spec 4 600).2 (by norm_num)⟩

/-- C8: with the 3601-entry circle cache populated (`numCoords = 3600`),
`angleLookup` is periodic with period 360 and always lands in the index
range `[0, 3600)`, for every rational angle, negative and boundary inputs
included.  (Determinism is immediate: the embedded `angleLookup` is a pure
function of the angle.) -/
theorem angleLookup_periodic_bounded (x : ℚ) :
    angleLookup (x + 360) = angleLookup x ∧
    0 ≤ angleLookup x ∧ angleLookup x < 3600 := by
  rw [angleLookup_eq_emod, angleLookup_eq_emod]
  refine ⟨?_, Int.emod_nonneg _ (by norm_num), Int.emod_lt_of_pos _ (by norm_num)⟩
  have h : (x + 360) * CIRCLE_RESOLUTION + 1 / 2 =
      (x * CIRCLE_RESOLUTION + 1 / 2) + (3600 : ℤ) := by
    norm_num [CIRCLE_RESOLUTION]
    ring
  rw [h, Int.floor_add_int]
  omega

/-- A 2D point.  SUMO `Position`s carry a `z` coordinate as well, but every
computation embedded here (`calculateRotation`, `calculateLength`,
`distanceTo2D`, the 2D sub-path machinery) reads only `x` and `y`. -/
abbrev Pt : Type := ℝ × ℝ

/-- The C library function `atan2(y, x)`: the angle of the point `(x, y)`
in `(-π, π]`, by the usual case split over the quadrants. -/
noncomputable def atan2 (y x : ℝ) : ℝ :=
  if 0 < x then Real.arctan (y / x)
  else if x < 0 ∧ 0 ≤ y then Real.arctan (y / x) + Real.pi
  else if x < 0 ∧ y < 0 then Real.arctan (y / x) - Real.pi
  else if x = 0 ∧ 0 < y then Real.pi / 2
  else if x = 0 ∧ y < 0 then -(Real.pi / 2)
  else 0

/-- Embeds `GNEGeometry::calculateRotation` (lines 566-570):
`atan2(second.x - first.x, first.y - second.y) * 180 / PI`. -/
noncomputable def calculateRotation (first second : Pt) : ℝ :=
  atan2 (second.1 - first.1) (first.2 - second.2) * 180 / Real.pi

/-- Embeds `GNEGeometry::calculateLength` (lines 573-577): the Euclidean 2D
distance `first.distanceTo2D(second)`. -/
noncomputable def calculateLength (first second : Pt) : ℝ :=
  Real.sqrt ((first.1 - second.1) ^ 2 + (first.2 - second.2) ^ 2)

/-- Embeds `GNEGeometry::Geometry`: a polyline plus the cached per-segment
rotation and length vectors. -/
structure Geometry where
  myShape : List Pt
  myShapeRotations : List ℝ
  myShapeLengths : List ℝ

/-- Embeds `Geometry::calculateShapeRotationsAndLengths` (lines 224-242): after
clearing both caches, `numberOfSegments = size - 1` and the loop pushes
`calculateRotation(myShape[i], myShape[i+1])` and
`calculateLength(myShape[i], myShape[i+1])` for `i = 0 .. size - 2`; an
empty shape skips the loop (natural subtraction models the `int` guard
`numberOfSegments >= 0`). -/
noncomputable def calculateShapeRotationsAndLengths (shape : List Pt) :
    List ℝ × List ℝ :=
  ((List.range (shape.length - 1)).map
      (fun i => calculateRotation (shape.getD i (0, 0)) (shape.getD (i + 1) (0, 0))),
   (List.range (shape.length - 1)).map
      (fun i => calculateLength (shape.getD i (0, 0)) (shape.getD (i + 1) (0, 0))))

/-- The `Geometry(const PositionVector& shape)` constructor (lines 49-53):
store the shape and compute both caches. -/
noncomputable def Geometry.fromShape (shape : List Pt) : Geometry :=
  { myShape := shape
    myShapeRotations := (calculateShapeRotationsAndLengths shape).1
    myShapeLengths := (calculateShapeRotationsAndLengths shape).2 }

/-- Modelled from the spec: the external path/position collaborators of §6
(`PositionVector` and `Position` methods declared outside `src/`) that the
`Geometry` update operations call.  They enter the embedding as opaque
function parameters; nothing is assumed about them beyond their
signatures. -/
structure PathOps where
  length2D : List Pt → ℝ
  length : List Pt → ℝ
  move2side : List Pt → ℝ → List Pt
  getSubpart2D : List Pt → ℝ → ℝ → List Pt
  positionAtOffset : List Pt → ℝ → ℝ → Pt
  rotationDegreeAtOffset : List Pt → ℝ → ℝ
  push_front_noDoublePos : List Pt → Pt → List Pt
  push_back_noDoublePos : List Pt → Pt → List Pt
  scaleRelative : List Pt → ℝ → List Pt
  invalidPos : Pt

/-- Embeds `Geometry::updateGeometry(shape)` (lines 63-71): clear, replace the
shape, recompute both caches.  The previous state is discarded wholly. -/
noncomputable def updateGeometry (g : Geometry) (shape : List Pt) : Geometry :=
  Geometry.fromShape shape

/-- Embeds `Geometry::updateGeometry(shape, posOverShape, lateralOffset)`
(lines 74-91): project one point at the clamped arclength; the result is a
single position with a single tangent rotation and an empty length
cache. -/
noncomputable def updateGeometryPosOverShape (ops : PathOps) (g : Geometry)
    (shape : List Pt) (posOverShape lateralOffset : ℝ) : Geometry :=
  let shapeLength := ops.length shape
  if posOverShape < 0 then
    { myShape := [ops.positionAtOffset shape 0 lateralOffset]
      myShapeRotations := [ops.rotationDegreeAtOffset shape 0]
      myShapeLengths := [] }
  else if posOverShape > shapeLength then
    { myShape := [ops.positionAtOffset shape shapeLength lateralOffset]
      myShapeRotations := [ops.rotationDegreeAtOffset shape shapeLength]
      myShapeLengths := [] }
  else
    { myShape := [ops.positionAtOffset shape posOverShape lateralOffset]
      myShapeRotations := [ops.rotationDegreeAtOffset shape posOverShape]
      myShapeLengths := [] }

/-- Embeds `Geometry::updateGeometry(shape, starPosOverShape, endPosOverShape,
lateralOffset)` (lines 94-128): lateral shift, clamp the two arclength
offsets (the phase embedded in `updateGeometryOffsetClamp`), extract the
2D sub-path, recompute the caches. -/
noncomputable def updateGeometryStartEnd (ops : PathOps) (g : Geometry)
    (shape : List Pt) (starPosOverShape endPosOverShape lateralOffset : ℝ) : Geometry :=
  let moved := ops.move2side shape lateralOffset
  let shapeLength := ops.length2D moved
  let clamped :=
    updateGeometryOffsetClamp ((POSITION_EPS : ℚ) : ℝ) shapeLength
      starPosOverShape endPosOverShape
  Geometry.fromShape (ops.getSubpart2D moved clamped.1 clamped.2)

/-- Embeds `Geometry::updateGeometry(shape, beginTrimPosition, endTrimPosition,
extraFirstPosition, extraLastPosition)` (lines 131-174): trimming (and the
extra endpoints) only happen when either trim value differs from the
sentinel `-1`; the caches are recomputed in both branches. -/
noncomputable def updateGeometryTrim (ops : PathOps) (g : Geometry)
    (shape : List Pt) (beginTrimPosition endTrimPosition : ℝ)
    (extraFirstPosition extraLastPosition : Pt) : Geometry :=
  if beginTrimPosition ≠ -1 ∨ endTrimPosition ≠ -1 then
    let shapeLength := ops.length2D shape
    let begin1 := if beginTrimPosition < 0 then 0 else beginTrimPosition
    let end1 := if endTrimPosition < 0 then shapeLength else endTrimPosition
    let begin2 :=
      if begin1 > shapeLength - ((POSITION_EPS : ℚ) : ℝ) then
        shapeLength - ((POSITION_EPS : ℚ) : ℝ)
      else begin1
    let end2 := if end1 > shapeLength then shapeLength else end1
    let end3 := if end2 ≤ begin2 then end2 + ((POSITION_EPS : ℚ) : ℝ) else end2
    let trimmed := ops.getSubpart2D shape begin2 end3
    let withFirst :=
      if extraFirstPosition ≠ ops.invalidPos then
        ops.push_front_noDoublePos trimmed extraFirstPosition
      else trimmed
    let withLast :=
      if extraLastPosition ≠ ops.invalidPos then
        ops.push_back_noDoublePos withFirst extraLastPosition
      else withFirst
    Geometry.fromShape withLast
  else
    Geometry.fromShape shape

/-- Embeds `Geometry::updateSinglePosGeometry(position, rotation)` (lines
177-184): clear, then push one position and one caller-supplied rotation;
the length cache stays empty. -/
noncomputable def updateSinglePosGeometry (g : Geometry) (position : Pt)
    (rotation : ℝ) : Geometry :=
  { myShape := [position]
    myShapeRotations := [rotation]
    myShapeLengths := [] }

/-- Embeds `Geometry::scaleGeometry(scale)` (lines 187-195): scale the polyline
through the external `scaleRelative` and multiply every cached length by
the factor; the rotation cache is untouched. -/
noncomputable def scaleGeometry (ops : PathOps) (g : Geometry) (scale : ℝ) : Geometry :=
  { myShape := ops.scaleRelative g.myShape scale
    myShapeRotations := g.myShapeRotations
    myShapeLengths := g.myShapeLengths.map (fun shapeLength => shapeLength * scale) }

/-- The cache invariant of the spec's data model:
`|rotations| = |lengths| = max(0, |shape| - 1)` (natural subtraction). -/
def geometryInvariant (g : Geometry) : Prop :=
  g.myShapeRotations.length = g.myShape.length - 1 ∧
  g.myShapeLengths.length = g.myShape.length - 1

/-- Any geometry produced by a full cache recomputation satisfies the
invariant. -/
theorem geometryInvariant_fromShape (shape : List Pt) :
    geometryInvariant (Geometry.fromShape shape) := by
  simp [geometryInvariant, Geometry.fromShape, calculateShapeRotationsAndLengths]

/-- Indexing a `List.range`-driven map, as used by the cache loops. -/
theorem getD_range_map {β : Type} (f : ℕ → β) (n i : ℕ) (d : β) (h : i < n) :
    ((List.range n).map f).getD i d = f i := by
  rw [List.getD_eq_getElem?_getD, List.getElem?_eq_getElem (by simpa using h)]
  simp

/-- Evaluation of the segment-rotation formula on the due-north segment
`(0,0) → (0,10)`: `atan2(0, -10)` is `π`, so the bearing is 180 degrees. -/
theorem calculateRotation_north : calculateRotation ((0 : ℝ), 0) (0, 10) = 180 := by
  unfold calculateRotation
  norm_num
  unfold atan2
  rw [if_neg (by norm_num), if_pos (by norm_num)]
  norm_num [Real.arctan_zero]
  field_simp

/-- Evaluation of the segment-length formula on `(0,0) → (0,10)`. -/
theorem calculateLength_north : calculateLength ((0 : ℝ), 0) (0, 10) = 10 := by
  unfold calculateLength
  norm_num
  rw [show (100 : ℝ) = 10 ^ 2 by norm_num, Real.sqrt_sq (by norm_num)]

/-- The caches of `Geometry` built from a two-point polyline. -/
theorem fromShape_pair (p q : Pt) :
    (Geometry.fromShape [p, q]).myShapeRotations = [calculateRotation p q] ∧
    (Geometry.fromShape [p, q]).myShapeLengths = [calculateLength p q] := by
  have h1 : List.range 1 = [0] := rfl
  constructor <;>
    simp [Geometry.fromShape, calculateShapeRotationsAndLengths, h1]

/-- C4 (counterexample): `Geometry({(0,0),(0,10)})` does not have
`rotations = [0°]`.  The code computes `atan2(dx, -dy)`, which is zero for
a segment pointing along `-Y`, not `+Y`; the due-north example segment
gets bearing 180°. -/
theorem geometry_north_example_cex :
    (Geometry.fromShape [((0 : ℝ), 0), (0, 10)]).myShapeRotations ≠ [(0 : ℝ)] := by
  rw [(fromShape_pair _ _).1, calculateRotation_north]
  intro hc
  have h180 : (180 : ℝ) = 0 := List.head_eq_of_cons_eq hc
  norm_num at h180

/-- C4 (amended): `Geometry({(0,0),(0,10)})` yields `rotations = [180°]`
and `lengths = [10.0]`; the segment rotation `atan2(dx, -dy)` in degrees
is a bearing in which 0° points along `-Y` and 90° along `+X`. -/
theorem geometry_north_example_amended :
    (Geometry.fromShape [((0 : ℝ), 0), (0, 10)]).myShapeRotations = [180] ∧
    (Geometry.fromShape [((0 : ℝ), 0), (0, 10)]).myShapeLengths = [10] ∧
    calculateRotation ((0 : ℝ), 0) (0, -1) = 0 ∧
    calculateRotation ((0 : ℝ), 0) (1, 0) = 90 := by
  refine ⟨?_, ?_, ?_, ?_⟩
  · rw [(fromShape_pair _ _).1, calculateRotation_north]
  · rw [(fromShape_pair _ _).2, calculateLength_north]
  · unfold calculateRotation atan2
    norm_num
  · unfold calculateRotation atan2
    norm_num
    field_simp
    ring

/-- C5: for every polyline `P`, the constructed `Geometry(P)` carries
rotation and length caches of length `max(0, |P| - 1)` whose `i`-th
entries are exactly
`atan2(P[i+1].x - P[i].x, P[i].y - P[i+1].y) * 180 / π` and the Euclidean
2D distance between `P[i]` and `P[i+1]`; empty and single-point polylines
yield empty caches (total, no failure case). -/
theorem geometry_fromShape_pairwise (P : List Pt) :
    (Geometry.fromShape P).myShapeRotations.length = P.length - 1 ∧
    (Geometry.fromShape P).myShapeLengths.length = P.length - 1 ∧
    ∀ i, i < P.length - 1 →
      (Geometry.fromShape P).myShapeRotations.getD i 0 =
        atan2 ((P.getD (i + 1) (0, 0)).1 - (P.getD i (0, 0)).1)
          ((P.getD i (0, 0)).2 - (P.getD (i + 1) (0, 0)).2) * 180 / Real.pi ∧
      (Geometry.fromShape P).myShapeLengths.getD i 0 =
        Real.sqrt (((P.getD i (0, 0)).1 - (P.getD (i + 1) (0, 0)).1) ^ 2 +
          ((P.getD i (0, 0)).2 - (P.getD (i + 1) (0, 0)).2) ^ 2) := by
  refine ⟨by simp [Geometry.fromShape, calculateShapeRotationsAndLengths],
    by simp [Geometry.fromShape, calculateShapeRotationsAndLengths], ?_⟩
  intro i hi
  constructor
  · rw [show (Geometry.fromShape P).myShapeRotations =
      (List.range (P.length - 1)).map
        (fun i => calculateRotation (P.getD i (0, 0)) (P.getD (i + 1) (0, 0))) from rfl]
    rw [getD_range_map _ _ _ _ hi]
    rfl
  · rw [show (Geometry.fromShape P).myShapeLengths =
      (List.range (P.length - 1)).map
        (fun i => calculateLength (P.getD i (0, 0)) (P.getD (i + 1) (0, 0))) from rfl]
    rw [getD_range_map _ _ _ _ hi]
    rfl

/-- C5 (witness): the pairwise formulas instantiated on the concrete
polyline `[(0,0), (3,4)]` at index 0. -/
theorem geometry_fromShape_pairwise_witness :
    (0 < [((0 : ℝ), 0), ((3 : ℝ), 4)].length - 1) ∧
    (Geometry.fromShape [((0 : ℝ), 0), ((3 : ℝ), 4)]).myShapeLengths.getD 0 0 =
      Real.sqrt ((0 - 3) ^ 2 + (0 - 4) ^ 2) := by
  refine ⟨by simp, ?_⟩
  have h := (geometry_fromShape_pairwise [((0 : ℝ), 0), ((3 : ℝ), 4)]).2.2 0 (by simp)
  simpa using h.2

/-- C3 (counterexample): `updateSinglePosGeometry` (and likewise the
point-projection update) leaves the caches with
`|rotations| = 1` and `|lengths| = 0` for a one-point shape, so the
claimed invariant `|rotations| = |lengths| = max(0, |shape| - 1)` does not
hold after every update operation. -/
theorem updateSinglePosGeometry_invariant_cex :
    ¬ geometryInvariant
        (updateSinglePosGeometry ⟨[], [], []⟩ ((0 : ℝ), (0 : ℝ)) 90) := by
  simp [geometryInvariant, updateSinglePosGeometry]

/-- C3 (amended): the invariant `|rotations| = |lengths| = max(0,|shape|-1)`
holds after construction from a polyline, after the full-replace update,
after both trimming updates (for every behaviour of the external path
collaborators), and is preserved by `scaleGeometry` whenever the external
`scaleRelative` preserves the number of points; the point-projection and
single-point updates instead always produce `|shape| = 1`,
`|rotations| = 1` and an empty length cache. -/
theorem geometry_invariant_after_operations (ops : PathOps) (g : Geometry)
    (shape : List Pt) (starPos endPos lateralOffset beginTrim endTrim : ℝ)
    (posOverShape rotation scale : ℝ) (extraFirst extraLast position : Pt)
    (hg : geometryInvariant g)
    (hscale : (ops.scaleRelative g.myShape scale).length = g.myShape.length) :
    geometryInvariant (Geometry.fromShape shape) ∧
    geometryInvariant (updateGeometry g shape) ∧
    geometryInvariant (updateGeometryStartEnd ops g shape starPos endPos lateralOffset) ∧
    geometryInvariant (updateGeometryTrim ops g shape beginTrim endTrim extraFirst extraLast) ∧
    geometryInvariant (scaleGeometry ops g scale) ∧
    (updateGeometryPosOverShape ops g shape posOverShape lateralOffset).myShape.length = 1 ∧
    (updateGeometryPosOverShape ops g shape posOverShape lateralOffset).myShapeRotations.length = 1 ∧
    (updateGeometryPosOverShape ops g shape posOverShape lateralOffset).myShapeLengths = [] ∧
    (updateSinglePosGeometry g position rotation).myShape.length = 1 ∧
    (updateSinglePosGeometry g position rotation).myShapeRotations.length = 1 ∧
    (updateSinglePosGeometry g position rotation).myShapeLengths = [] := by
  obtain ⟨hr, hl⟩ := hg
  refine ⟨geometryInvariant_fromShape _, geometryInvariant_fromShape _,
    geometryInvariant_fromShape _, ?_, ?_, ?_, ?_, ?_, rfl, rfl, rfl⟩
  · unfold updateGeometryTrim
    split <;> exact geometryInvariant_fromShape _
  · unfold geometryInvariant scaleGeometry
    simp only [List.length_map]
    rw [hscale]
    exact ⟨hr, hl⟩
  all_goals unfold updateGeometryPosOverShape
  all_goals dsimp only
  all_goals split_ifs <;> rfl

/-- A concrete instantiation of the external path collaborators, for
witnessing statements that quantify over them. -/
noncomputable def examplePathOps : PathOps where
  length2D := fun _ => 0
  length := fun _ => 0
  move2side := fun s _ => s
  getSubpart2D := fun s _ _ => s
  positionAtOffset := fun _ _ _ => (0, 0)
  rotationDegreeAtOffset := fun _ _ => 0
  push_front_noDoublePos := fun s p => p :: s
  push_back_noDoublePos := fun s p => s ++ [p]
  scaleRelative := fun s _ => s
  invalidPos := (-1024, -1024)

/-- C3 (witness): the amended invariant statement at concrete inputs: the
empty geometry, trivial collaborators, and zero offsets. -/
theorem geometry_invariant_after_operations_witness :
    geometryInvariant
      (updateGeometryTrim examplePathOps ⟨[], [], []⟩ [((1 : ℝ), 2)] 3 4 (5, 6) (7, 8)) ∧
    (updateSinglePosGeometry (⟨[], [], []⟩ : Geometry) ((9 : ℝ), 9) 45).myShapeLengths = [] :=
  ⟨(geometry_invariant_after_operations examplePathOps ⟨[], [], []⟩ [((1 : ℝ), 2)]
      0 0 0 3 4 0 45 1 (5, 6) (7, 8) ((9 : ℝ), 9) ⟨rfl, rfl⟩ rfl).2.2.2.1,
   (geometry_invariant_after_operations examplePathOps ⟨[], [], []⟩ [((1 : ℝ), 2)]
      0 0 0 3 4 0 45 1 (5, 6) (7, 8) ((9 : ℝ), 9) ⟨rfl, rfl⟩ rfl).2.2.2.2.2.2.2.2.2.2⟩

/-- C10: in the four-argument trim update, when both trim positions equal
the sentinel `-1` the stored shape is the input shape unchanged and the
extra first/last positions are never attached, whatever their values (in
particular when they are valid, non-INVALID positions); the caches are
still recomputed from the untouched shape. -/
theorem updateGeometryTrim_sentinel_noop (ops : PathOps) (g : Geometry)
    (shape : List Pt) (extraFirst extraLast : Pt) :
    updateGeometryTrim ops g shape (-1) (-1) extraFirst extraLast =
      Geometry.fromShape shape ∧
    (updateGeometryTrim ops g shape (-1) (-1) extraFirst extraLast).myShape = shape := by
  have h : updateGeometryTrim ops g shape (-1) (-1) extraFirst extraLast =
      Geometry.fromShape shape := by
    unfold updateGeometryTrim
    rw [if_neg (by simp)]
  refine ⟨h, ?_⟩
  rw [h]
  rfl

/-- Modelled from the spec: the `DottedContourType` enumeration is declared
in `GNEGeometry.h`, which is not under `src/`.  The four members below the
first are the ones `getColor` recognises with a dedicated branch
(lines 255-286); `OTHER` stands for any further member, which the spec's
fallback arm (line 287-289) requires to exist. -/
inductive DottedContourType where
  | INSPECT
  | FRONT
  | GREEN
  | MAGENTA
  | OTHER
deriving DecidableEq

/-- Whether `getColor` has a dedicated branch for this contour type. -/
def DottedContourType.recognized : DottedContourType → Bool
  | .INSPECT | .FRONT | .GREEN | .MAGENTA => true
  | .OTHER => false

/-- Modelled from the spec: the colors `getColor` can return are read from
the external `GUIVisualizationSettings::dottedContourSettings` object and
from the external `RGBColor` statics (`GREEN`, `MAGENTA`, `BLACK`) and
`RGBColor::changedBrightness`, all declared outside `src/`.  They are
bundled as opaque values over an arbitrary color type. -/
structure ColorScheme (Color : Type) where
  firstInspectedColor : Color
  secondInspectedColor : Color
  firstFrontColor : Color
  secondFrontColor : Color
  green : Color
  magenta : Color
  black : Color
  changedBrightness : Color → ℤ → Color

/-- Embeds `DottedGeometryColor::getColor` (lines 253-290), as an explicit state
transformer on the single boolean `myColorFlag` (initialised to `true` by
the constructor, line 250): each recognised type returns the "first"
color and lowers the flag when it is raised, returns the "second" color
and raises it otherwise; any other type returns black and leaves the flag
alone. -/
def getColor {Color : Type} (cs : ColorScheme Color)
    (type : DottedContourType) (myColorFlag : Bool) : Color × Bool :=
  match type with
  | .INSPECT =>
    if myColorFlag then (cs.firstInspectedColor, false)
    else (cs.secondInspectedColor, true)
  | .FRONT =>
    if myColorFlag then (cs.firstFrontColor, false)
    else (cs.secondFrontColor, true)
  | .GREEN =>
    if myColorFlag then (cs.green, false)
    else (cs.changedBrightness cs.green (-30), true)
  | .MAGENTA =>
    if myColorFlag then (cs.magenta, false)
    else (cs.changedBrightness cs.magenta (-30), true)
  | .OTHER => (cs.black, myColorFlag)

/-- C6: from any flag state, a recognised contour type flips the flag and
two consecutive `getColor` calls with it return different colors (given
that the externally configured color pairs are distinct, as they are for
the built-in green/magenta pairs); an unrecognised type always returns the
fallback black and leaves the flag — and hence all subsequent
alternation — untouched. -/
theorem getColor_alternates {Color : Type} (cs : ColorScheme Color) (b : Bool)
    (h1 : cs.firstInspectedColor ≠ cs.secondInspectedColor)
    (h2 : cs.firstFrontColor ≠ cs.secondFrontColor)
    (h3 : cs.changedBrightness cs.green (-30) ≠ cs.green)
    (h4 : cs.changedBrightness cs.magenta (-30) ≠ cs.magenta) :
    (∀ t : DottedContourType, t.recognized = true →
      (getColor cs t b).2 = !b ∧
      (getColor cs t b).1 ≠ (getColor cs t (getColor cs t b).2).1) ∧
    (∀ t : DottedContourType, t.recognized = false →
      (getColor cs t b).1 = cs.black ∧ (getColor cs t b).2 = b) := by
  constructor <;> intro t ht <;> cases t <;> cases b <;>
    simp_all [getColor, DottedContourType.recognized] <;>
    first
      | exact fun hc => h1 hc.symm
      | exact fun hc => h2 hc.symm
      | exact fun hc => h3 hc.symm
      | exact fun hc => h4 hc.symm

/-- A concrete color scheme over `ℕ` with pairwise distinct colors, for
witnessing. -/
def exampleColorScheme : ColorScheme ℕ where
  firstInspectedColor := 0
  secondInspectedColor := 1
  firstFrontColor := 2
  secondFrontColor := 3
  green := 4
  magenta := 5
  black := 6
  changedBrightness := fun c _ => c + 100

/-- C6 (witness): the alternation statement instantiated on the concrete
scheme, with `INSPECT` from the initial raised flag. -/
theorem getColor_alternates_witness :
    (getColor exampleColorScheme .INSPECT true).2 = !true ∧
    (getColor exampleColorScheme .INSPECT true).1 ≠
      (getColor exampleColorScheme .INSPECT
        (getColor exampleColorScheme .INSPECT true).2).1 :=
  (getColor_alternates exampleColorScheme true (by decide) (by decide)
    (by decide) (by decide)).1 .INSPECT rfl

/-- An abstract identifier for a `GNELane*`. -/
abbrev GNELaneId : Type := ℕ

/-- Modelled from the spec: the network-topology environment read by
`updateLane2laneConnection` (lines 511-543) through classes declared
outside `src/` (`GNELane`, `GNEEdge`, `NBEdge`, `NBNode`): the owning
lane's edge lane count, the destination junction's footprint area, the
lanes of each outgoing edge of that junction, the external
`computeSmoothShape` collaborator, and the raw lane shape endpoints used
by the straight fallback. -/
structure Lane2laneEnv where
  fromNumLanes : ℕ
  toNodeShapeArea : ℝ
  outgoingEdges : List (List GNELaneId)
  computeSmoothShape : GNELaneId → List Pt
  fromLaneShapeBack : Pt
  toLaneShapeFront : GNELaneId → Pt

/-- Embeds the `std::map` bracket access followed by `updateGeometry` on the entry
(line 540): assign the value under the key, inserting the key when
absent. -/
def connectionsAssign (m : List (GNELaneId × Geometry)) (k : GNELaneId)
    (v : Geometry) : List (GNELaneId × Geometry) :=
  if m.any (fun p => p.1 == k) then
    m.map (fun p => if p.1 = k then (k, v) else p)
  else
    m ++ [(k, v)]

/-- Embeds `Lane2laneConnection::exist` (lines 546-549):
`myConnectionsMap.count(toLane) > 0`. -/
def exist (m : List (GNELaneId × Geometry)) (toLane : GNELaneId) : Bool :=
  m.any (fun p => p.1 == toLane)

/-- Embeds `Lane2laneConnection::updateLane2laneConnection` (lines 511-543):
clear the map, then for every outgoing edge of the owning lane's
destination junction and every lane of that edge, store a geometry built
either from the external smoothed curve (when the source edge has at most
10 lanes and the junction footprint area exceeds 4) or from the straight
two-point fallback.  The previous map contents are discarded by the
initial `clear()`, never merged. -/
noncomputable def updateLane2laneConnection (env : Lane2laneEnv)
    (prevConnectionsMap : List (GNELaneId × Geometry)) :
    List (GNELaneId × Geometry) :=
  env.outgoingEdges.foldl
    (fun m outgoingEdgeLanes =>
      outgoingEdgeLanes.foldl
        (fun m2 outgoingLane =>
          let shape : List Pt :=
            if env.fromNumLanes ≤ 10 ∧ env.toNodeShapeArea > 4 then
              env.computeSmoothShape outgoingLane
            else
              [env.fromLaneShapeBack, env.toLaneShapeFront outgoingLane]
          connectionsAssign m2 outgoingLane (Geometry.fromShape shape))
        m)
    []

/-- Assigning under a key makes exactly that key exist, on top of the
previous key set. -/
theorem exist_connectionsAssign (m : List (GNELaneId × Geometry))
    (k : GNELaneId) (v : Geometry) (l : GNELaneId) :
    exist (connectionsAssign m k v) l = true ↔ (exist m l = true ∨ l = k) := by
  unfold exist connectionsAssign
  by_cases hmk : m.any (fun p => p.1 == k) = true
  · rw [if_pos hmk]
    simp only [List.any_map, List.any_eq_true, Function.comp, beq_iff_eq] at *
    constructor
    · rintro ⟨p, hp, hpl⟩
      by_cases hpk : p.1 = k
      · rw [if_pos hpk] at hpl
        exact Or.inr hpl.symm
      · rw [if_neg hpk] at hpl
        exact Or.inl ⟨p, hp, hpl⟩
    · rintro (⟨p, hp, hpl⟩ | rfl)
      · refine ⟨p, hp, ?_⟩
        by_cases hpk : p.1 = k
        · rw [if_pos hpk]
          dsimp only
          rw [← hpk, hpl]
        · rw [if_neg hpk]
          exact hpl
      · obtain ⟨p, hp, hpk⟩ := hmk
        refine ⟨p, hp, ?_⟩
        rw [if_pos hpk]
  · rw [if_neg hmk]
    simp only [List.any_append, List.any_cons, List.any_nil, Bool.or_false,
      Bool.or_eq_true, beq_iff_eq]
    exact or_congr Iff.rfl eq_comm

/-- Folding the per-lane assignment over a lane list adds exactly that
lane list to the key set. -/
theorem exist_foldl_assign (geo : GNELaneId → Geometry) (lanes : List GNELaneId)
    (m : List (GNELaneId × Geometry)) (l : GNELaneId) :
    exist (lanes.foldl (fun m2 x => connectionsAssign m2 x (geo x)) m) l = true ↔
      (exist m l = true ∨ l ∈ lanes) := by
  induction lanes generalizing m with
  | nil => simp
  | cons x xs ih =>
    rw [List.foldl_cons, ih, exist_connectionsAssign]
    simp [or_assoc]

/-- Folding the per-edge loop over the outgoing-edge list adds exactly the
union of the edges' lane lists to the key set. -/
theorem exist_foldl_edges (geo : GNELaneId → Geometry)
    (edges : List (List GNELaneId)) (m : List (GNELaneId × Geometry))
    (l : GNELaneId) :
    exist (edges.foldl
        (fun acc el => el.foldl (fun m2 x => connectionsAssign m2 x (geo x)) acc) m) l
        = true ↔
      (exist m l = true ∨ ∃ el ∈ edges, l ∈ el) := by
  induction edges generalizing m with
  | nil => simp
  | cons E es ih =>
    rw [List.foldl_cons, ih, exist_foldl_assign]
    simp [or_assoc]

/-- C9: `exist(lane)` is `false` for every lane on the empty connection
map a fresh `Lane2laneConnection` starts with, and immediately after
`updateLane2laneConnection` — whatever the previous map contents —
`exist(lane)` holds exactly for the lanes of the outgoing edges of the
owning lane's destination junction enumerated by that update: the
previous contents are discarded wholesale, never merged. -/
theorem lane2lane_exist_spec (env : Lane2laneEnv)
    (prevConnectionsMap : List (GNELaneId × Geometry)) (lane : GNELaneId) :
    exist ([] : List (GNELaneId × Geometry)) lane = false ∧
    (exist (updateLane2laneConnection env prevConnectionsMap) lane = true ↔
      ∃ edgeLanes ∈ env.outgoingEdges, lane ∈ edgeLanes) := by
  refine ⟨rfl, ?_⟩
  unfold updateLane2laneConnection
  rw [exist_foldl_edges]
  simp [exist]

end GNEGeometry
